import Mathlib

/-!
Shallow embedding of the LazyMailBOSS auto-email-replier core pipeline:
the message filter (KeywordMatcher, DomainFilter, MessageFilter), the
AutoResponder reply lifecycle, the EmailMonitor polling/processing loop,
and the ConfigurationManager validation/hot-reload logic, together with
theorems settling the specification claims about them.

Strings are modelled with Lean `String`/`List Char`; JavaScript
`toLowerCase` is modelled with `Char.toLower` (faithful on ASCII, which is
all the code's own literals use); `Date`s are modelled as `Nat`
timestamps; `randomUUID` and SMTP/IMAP outcomes are explicit parameters.
-/

namespace LazyMail

/-! ## Text utilities (JS `toLowerCase`, `includes`, `indexOf('@')`, `replace(/pat/g, rep)`) -/

/-- JS `s.toLowerCase()` over a character list. -/
def lower (s : List Char) : List Char := s.map Char.toLower

/-- Boolean test that `p` starts the list `s` (character-wise). -/
def startsWithB : List Char → List Char → Bool
  | [], _ => true
  | _ :: _, [] => false
  | p :: ps, c :: cs => p == c && startsWithB ps cs

/-- JS `hay.includes(needle)`: `needle` occurs contiguously in `hay`. -/
def containsSub (hay needle : List Char) : Bool :=
  match hay with
  | [] => needle.isEmpty
  | c :: t => startsWithB needle (c :: t) || containsSub t needle

/-- Fuel-driven worker for global replacement (fuel bounds the scan length). -/
def replaceAllAux : Nat → List Char → List Char → List Char → List Char
  | 0, s, _, _ => s
  | _ + 1, [], _, _ => []
  | f + 1, c :: t, pat, rep =>
    if !pat.isEmpty && startsWithB pat (c :: t) then
      rep ++ replaceAllAux f ((c :: t).drop pat.length) pat rep
    else
      c :: replaceAllAux f t pat rep

/-- JS `s.replace(/pat/g, rep)` with a literal (non-empty in all uses) pattern. -/
def replaceAll (s pat rep : List Char) : List Char :=
  replaceAllAux s.length s pat rep

/-! ## Data model: Email, FilterDecision, FilterConfig (src/src/models, filter files) -/

/-- The `Email` interface (`from`/`to` are `fromAddr`/`toAddr` since those words are reserved in Lean). -/
structure Email where
  id : String
  fromAddr : String
  toAddr : String
  subject : String
  body : String
  receivedAt : Nat
  isRead : Bool
deriving DecidableEq, Repr

/-- `FilterDecision` returned by `MessageFilter.shouldAutoReply`. -/
structure FilterDecision where
  approved : Bool
  reason : String
  matchedKeywords : Option (List String) := none
deriving DecidableEq, Repr

/-- `FilterConfig` handed to the `MessageFilter` constructor. -/
structure FilterConfig where
  keywordsEnabled : Bool
  keywords : List String
  excludedDomains : List String
deriving DecidableEq, Repr

/-! ## KeywordMatcher (src/src/filter/KeywordMatcher.ts) -/

/-- The `KeywordMatcher` constructor lower-cases every configured keyword. -/
def KeywordMatcher.keywordsOf (ks : List String) : List (List Char) :=
  ks.map (fun k => lower k.data)

/-- `KeywordMatcher.findMatches`: filter the (lower-cased) keywords by
occurrence in the lower-cased `` `${subject} ${body}` `` search text. -/
def findMatches (ks : List (List Char)) (e : Email) : List (List Char) :=
  let searchText := lower (e.subject.data ++ ' ' :: e.body.data)
  ks.filter (fun kw => containsSub searchText kw)

/-! ## DomainFilter (src/src/filter/DomainFilter.ts) -/

/-- `DomainFilter.extractDomain`: everything after the first `@`,
lower-cased; the empty string when there is no `@`. -/
def extractDomain (addr : List Char) : List Char :=
  match addr with
  | [] => []
  | c :: t => if c = '@' then lower t else extractDomain t

/-- The `DomainFilter` constructor lower-cases every excluded domain. -/
def DomainFilter.domainsOf (ds : List String) : List (List Char) :=
  ds.map (fun d => lower d.data)

/-- `DomainFilter.isExcluded`: extracted domain is in the excluded list. -/
def isExcluded (excluded : List (List Char)) (addr : List Char) : Bool :=
  excluded.contains (extractDomain addr)

/-! ## MessageFilter (class MessageFilter, shipped beside DomainFilter.test.ts) -/

/-- The rejection reason built for an excluded sender domain. -/
def excludedReason (domain : List Char) : String :=
  "Sender domain is excluded: " ++ String.mk domain

/-- `MessageFilter.shouldAutoReply`: domain exclusion first, then keyword
filtering when enabled, otherwise approve. -/
def shouldAutoReply (cfg : FilterConfig) (e : Email) : FilterDecision :=
  if isExcluded (DomainFilter.domainsOf cfg.excludedDomains) e.fromAddr.data then
    { approved := false
      reason := excludedReason (extractDomain e.fromAddr.data) }
  else if cfg.keywordsEnabled then
    let matched := findMatches (KeywordMatcher.keywordsOf cfg.keywords) e
    if matched.length > 0 then
      { approved := true
        reason := "Email contains required keywords"
        matchedKeywords := some (matched.map String.mk) }
    else
      { approved := false
        reason := "Email does not contain any required keywords" }
  else
    { approved := true
      reason := "Keyword filtering disabled, all non-excluded emails approved" }

/-! ## Spec-side predicates used to compare claims against the code -/

/-- Spec-side: `kw` occurs case-insensitively in the string `s`. -/
def occursCI (kw s : String) : Bool :=
  containsSub (lower s.data) (lower kw.data)

/-- Spec-side: the raw domain part of `addr` after its first `@`
(`none` when there is no `@`), not yet case-folded. -/
def afterFirstAt : List Char → Option (List Char)
  | [] => none
  | c :: t => if c = '@' then some t else afterFirstAt t

/-- Spec-side: lower-case a whole `String`. -/
def toLowerStr (s : String) : String := String.mk (lower s.data)

/-! ## Reply model (src/src/models, `ReplyStatus`, `Reply`) -/

/-- `ReplyStatus`: the five lifecycle states of a reply. -/
inductive ReplyStatus
  | pending
  | approved
  | rejected
  | sent
  | failed
deriving DecidableEq, Repr

/-- Spec-side: the terminal statuses named by the spec's lifecycle. -/
def ReplyStatus.isTerminal : ReplyStatus → Bool
  | .sent | .rejected | .failed => true
  | _ => false

/-- The `Reply` interface (`to` is `toAddr`, see `Email`). -/
structure Reply where
  id : String
  originalEmailId : String
  toAddr : String
  subject : String
  body : String
  generatedAt : Nat
  status : ReplyStatus
  sentAt : Option Nat := none
deriving DecidableEq, Repr

/-! ## Observable pipeline events

External effects of the responder/monitor (SMTP send, IMAP mark-as-read,
pending-queue operations) are recorded as an explicit event trace. -/

/-- Observable side effects of the processing pipeline, in program order. -/
inductive Ev
  | sendMail (replyId : String)
  | markRead (emailId : String)
  | queued (replyId : String)
  | filtered (emailId : String)
  | removedFromPending (replyId : String)
deriving DecidableEq, Repr

/-- Recognizer for SMTP-send events. -/
def Ev.isSendMail : Ev → Bool
  | .sendMail _ => true
  | _ => false

/-! ## AutoResponder (src/src/responder/AutoResponder.ts) -/

/-- The parts of `AutoResponderConfig` the pure pipeline consults. -/
structure ResponderConfig where
  replyTemplate : String
  manualConfirmation : Bool
deriving DecidableEq, Repr

/-- `renderTemplate`: chained global replacement of the three placeholders
with the email's sender, subject and body. -/
def renderTemplate (template : String) (e : Email) : String :=
  String.mk
    (replaceAll
      (replaceAll
        (replaceAll template.data "{sender}".data e.fromAddr.data)
        "{subject}".data e.subject.data)
      "{body}".data e.body.data)

/-- `generateReply` (pure part): `randomUUID` and `new Date()` are the
explicit `newId`/`now` parameters. -/
def generateReply (cfg : ResponderConfig) (newId : String) (now : Nat) (e : Email) : Reply :=
  { id := newId
    originalEmailId := e.id
    toAddr := e.fromAddr
    subject := "Re: " ++ e.subject
    body := renderTemplate cfg.replyTemplate e
    generatedAt := now
    status := if cfg.manualConfirmation then .pending else .approved }

/-- `SendResult` returned by `sendReply`. -/
structure SendResult where
  success : Bool
  error : Option String := none
  sentAt : Option Nat := none
deriving DecidableEq, Repr

/-- `sendReply`: the SMTP outcome is the oracle parameter `ok`. On success
the reply becomes `sent` with `sentAt` stamped; on failure it becomes
`failed`. Either way the transport was invoked once and nothing is thrown. -/
def sendReply (ok : Bool) (now : Nat) (r : Reply) : Reply × SendResult × List Ev :=
  if ok then
    ({ r with status := .sent, sentAt := some now },
     { success := true, sentAt := some now },
     [Ev.sendMail r.id])
  else
    ({ r with status := .failed },
     { success := false, error := some "send error" },
     [Ev.sendMail r.id])

/-- The in-memory pending-confirmation queue (`Map<string, Reply>` as an
association list with unique keys, insertion-ordered like a JS `Map`). -/
structure ResponderState where
  pending : List (String × Reply)
deriving DecidableEq, Repr

/-- JS `Map.prototype.get`. -/
def mapGet (m : List (String × Reply)) (k : String) : Option Reply :=
  (m.find? (fun p => p.1 == k)).map (·.2)

/-- JS `Map.prototype.set`: replace in place if the key exists, else append. -/
def mapSet (m : List (String × Reply)) (k : String) (v : Reply) : List (String × Reply) :=
  if m.any (fun p => p.1 == k) then
    m.map (fun p => if p.1 == k then (k, v) else p)
  else
    m ++ [(k, v)]

/-- JS `Map.prototype.delete`. -/
def mapDelete (m : List (String × Reply)) (k : String) : List (String × Reply) :=
  m.filter (fun p => p.1 != k)

/-- `queueForConfirmation`: force `status = pending`, store under the reply id. -/
def queueForConfirmation (s : ResponderState) (r : Reply) : ResponderState :=
  { pending := mapSet s.pending r.id { r with status := .pending } }

/-- The NotFound condition thrown by `processConfirmation`. -/
inductive ConfirmError
  | notFound (replyId : String)
deriving DecidableEq, Repr

/-- `processConfirmation`: look the id up in the pending queue (throwing
NotFound when absent); on approve transition to `approved` and send, on
reject transition to `rejected`; in both branches mark the original email
read and then delete the queue entry. Returns the new state, the resolved
reply and the event trace. -/
def processConfirmation (s : ResponderState) (replyId : String) (approved : Bool)
    (sendOk : Bool) (now : Nat) :
    Except ConfirmError (ResponderState × Reply × List Ev) :=
  match mapGet s.pending replyId with
  | none => .error (.notFound replyId)
  | some reply =>
    if approved then
      let (r2, _res, evs) := sendReply sendOk now { reply with status := .approved }
      .ok ({ pending := mapDelete s.pending replyId }, r2,
           evs ++ [Ev.markRead reply.originalEmailId, Ev.removedFromPending replyId])
    else
      .ok ({ pending := mapDelete s.pending replyId },
           { reply with status := .rejected },
           [Ev.markRead reply.originalEmailId, Ev.removedFromPending replyId])

/-- `getPendingReplies`: snapshot of the pending queue's values. -/
def getPendingReplies (s : ResponderState) : List Reply :=
  s.pending.map (·.2)

/-! ## EmailMonitor (src/EmailMonitor.ts) -/

/-- The configuration the monitor pipeline consults per email. -/
structure MonitorEnv where
  filterConfig : FilterConfig
  responderCfg : ResponderConfig
deriving DecidableEq, Repr

/-- `processEmail`: filter; rejected emails are logged and marked read;
approved emails get a generated reply which is either queued (pending,
manual mode — not yet marked read) or sent immediately and then marked
read regardless of the send outcome. Returns the responder state, the
reply produced (if any) and the event trace. -/
def processEmail (env : MonitorEnv) (s : ResponderState) (newId : String)
    (now : Nat) (sendOk : Bool) (e : Email) :
    ResponderState × Option Reply × List Ev :=
  let d := shouldAutoReply env.filterConfig e
  if d.approved then
    let reply := generateReply env.responderCfg newId now e
    if reply.status = .pending then
      (queueForConfirmation s reply, some reply, [Ev.queued reply.id])
    else
      let (r2, _res, evs) := sendReply sendOk now reply
      (s, some r2, evs ++ [Ev.markRead e.id])
  else
    (s, none, [Ev.filtered e.id, Ev.markRead e.id])

/-! ## checkInbox message assembly (src/EmailMonitor.ts lines 144-189) -/

/-- One address of an IMAP envelope (`envelope.from[0]` / `envelope.to[0]`). -/
structure ImapAddress where
  mailbox : String
  host : String
deriving DecidableEq, Repr

/-- The envelope attributes `checkInbox` reads (absent fields are `none`). -/
structure ImapEnvelope where
  fromAddr : Option ImapAddress := none
  toAddr : Option ImapAddress := none
  subject : Option String := none
  date : Option Nat := none
deriving DecidableEq, Repr

/-- One fetched message: its uid (stringified), optional envelope, body. -/
structure RawMessage where
  uid : String
  envelope : Option ImapEnvelope := none
  body : String
deriving DecidableEq, Repr

/-- The per-message assembly in `checkInbox`'s fetch handler: fields start
as empty strings / `now`, the envelope (when present) fills them, and the
message is kept only when `uid` and `from` are truthy (non-empty). -/
def emailFromRaw (now : Nat) (m : RawMessage) : Option Email :=
  let fromS := match m.envelope with
    | some env => match env.fromAddr with
      | some a => a.mailbox ++ "@" ++ a.host
      | none => ""
    | none => ""
  let toS := match m.envelope with
    | some env => match env.toAddr with
      | some a => a.mailbox ++ "@" ++ a.host
      | none => ""
    | none => ""
  let subjS := match m.envelope with
    | some env => env.subject.getD ""
    | none => ""
  let recvAt := match m.envelope with
    | some env => env.date.getD now
    | none => now
  if m.uid ≠ "" && fromS ≠ "" then
    some { id := m.uid, fromAddr := fromS, toAddr := toS, subject := subjS,
           body := m.body, receivedAt := recvAt, isRead := false }
  else
    none

/-- `checkInbox` (successful path): the emails assembled from the fetched
messages, in mailbox order. -/
def checkInbox (now : Nat) (msgs : List RawMessage) : List Email :=
  msgs.filterMap (emailFromRaw now)

/-! ## pollInbox failure handling (src/EmailMonitor.ts lines 286-335) -/

/-- `MAX_CONSECUTIVE_FAILURES` constant of `EmailMonitorImpl`. -/
def MAX_CONSECUTIVE_FAILURES : Nat := 5

/-- The monitor state `pollInbox` reads and writes. -/
structure MonitorState where
  consecutiveFailures : Nat
  isRunning : Bool
deriving DecidableEq, Repr

/-- The error-path log entries `pollInbox` can emit in one cycle. -/
inductive MonLog
  | checkFailed (attempt : Nat) (maxF : Nat)
  | maxFailuresReached (maxF : Nat)
deriving DecidableEq, Repr

/-- The log entries of one failed cycle whose (already incremented)
failure count is `n`: one `checkFailed` entry naming the attempt count,
plus the distinguished `maxFailuresReached` entry when `n` has reached
`MAX_CONSECUTIVE_FAILURES`. -/
def failCycleLogs (n : Nat) : List MonLog :=
  [MonLog.checkFailed n MAX_CONSECUTIVE_FAILURES] ++
    (if MAX_CONSECUTIVE_FAILURES ≤ n then
      [MonLog.maxFailuresReached MAX_CONSECUTIVE_FAILURES]
    else [])

/-- One `pollInbox` cycle, with the `checkInbox` outcome as the oracle
`success`: success resets the consecutive-failure counter; failure
increments it and logs `failCycleLogs`. The running flag is never
touched — the loop keeps retrying. -/
def pollCycle (s : MonitorState) (success : Bool) : MonitorState × List MonLog :=
  if success then
    ({ s with consecutiveFailures := 0 }, [])
  else
    let n := s.consecutiveFailures + 1
    ({ s with consecutiveFailures := n }, failCycleLogs n)

/-- Run a sequence of poll cycles, collecting each cycle's log entries. -/
def runPolls (s : MonitorState) : List Bool → MonitorState × List (List MonLog)
  | [] => (s, [])
  | o :: os =>
    let (s1, logs) := pollCycle s o
    let (s2, rest) := runPolls s1 os
    (s2, logs :: rest)

/-! ## ConfigurationManager (ConfigurationManagerImpl, unnamed source file)

Configuration updates arrive as dynamically-typed partial objects, so the
update fields are modelled as JavaScript values with explicit truthiness. -/

/-- A JavaScript value as `validateConfig` can observe it. -/
inductive JSVal
  | num (n : Int)
  | str (s : String)
  | boolean (b : Bool)
  | arr (elems : List String)
  | undef
deriving DecidableEq, Repr

/-- JS truthiness (`0`, `""`, `false`, `undefined` are falsy). -/
def JSVal.truthy : JSVal → Bool
  | .num n => !(n == 0)
  | .str s => !(s == "")
  | .boolean b => b
  | .arr _ => true
  | .undef => false

/-- JS `typeof v === 'number'`. -/
def JSVal.isNum : JSVal → Bool
  | .num _ => true
  | _ => false

/-- JS `typeof v === 'string'`. -/
def JSVal.isStr : JSVal → Bool
  | .str _ => true
  | _ => false

/-- JS `typeof v === 'boolean'`. -/
def JSVal.isBool : JSVal → Bool
  | .boolean _ => true
  | _ => false

/-- JS `Array.isArray(v)`. -/
def JSVal.isArr : JSVal → Bool
  | .arr _ => true
  | _ => false

/-- JS `v <= 0` as evaluated after a `typeof v === 'number'` guard. -/
def JSVal.numLeZero : JSVal → Bool
  | .num n => n ≤ 0
  | _ => false

/-- Truthiness of an optional property (absent reads as `undefined`). -/
def optTruthy : Option JSVal → Bool
  | none => false
  | some v => v.truthy

/-- JS `v !== undefined` for an optional property. -/
def optDefined : Option JSVal → Bool
  | none => false
  | some .undef => false
  | some _ => true

/-- The `email` section of a partial configuration update. -/
structure EmailUpdate where
  imapHost : Option JSVal := none
  imapPort : Option JSVal := none
  smtpHost : Option JSVal := none
  smtpPort : Option JSVal := none
  username : Option JSVal := none
  password : Option JSVal := none
deriving DecidableEq, Repr

/-- The `filters` section of a partial configuration update. -/
structure FiltersUpdate where
  keywordsEnabled : Option JSVal := none
  keywords : Option JSVal := none
  excludedDomains : Option JSVal := none
deriving DecidableEq, Repr

/-- The `autoReply` section of a partial configuration update. -/
structure AutoReplyUpdate where
  manualConfirmation : Option JSVal := none
  replyTemplate : Option JSVal := none
  checkInterval : Option JSVal := none
deriving DecidableEq, Repr

/-- A `Partial<Config>` update object. -/
structure ConfigUpdate where
  email : Option EmailUpdate := none
  filters : Option FiltersUpdate := none
  autoReply : Option AutoReplyUpdate := none
deriving DecidableEq, Repr

/-- `if (v && typeof v !== 'string') throw msg`. -/
def chkStr (v : Option JSVal) (msg : String) : Except String Unit :=
  if optTruthy v && !(match v with | some x => x.isStr | none => false) then
    .error msg
  else
    .ok ()

/-- `if (v && (typeof v !== 'number' || v <= 0)) throw msg`. -/
def chkPosNum (v : Option JSVal) (msg : String) : Except String Unit :=
  if optTruthy v &&
      (!(match v with | some x => x.isNum | none => false) ||
        (match v with | some x => x.numLeZero | none => false)) then
    .error msg
  else
    .ok ()

/-- `if (v !== undefined && typeof v !== 'boolean') throw msg`. -/
def chkBool (v : Option JSVal) (msg : String) : Except String Unit :=
  if optDefined v && !(match v with | some x => x.isBool | none => false) then
    .error msg
  else
    .ok ()

/-- `if (v && !Array.isArray(v)) throw msg`. -/
def chkArr (v : Option JSVal) (msg : String) : Except String Unit :=
  if optTruthy v && !(match v with | some x => x.isArr | none => false) then
    .error msg
  else
    .ok ()

/-- `ConfigurationManagerImpl.validateConfig`, checks in source order,
first failure wins (the method throws). -/
def validateConfig (u : ConfigUpdate) : Except String Unit := do
  match u.email with
  | some e =>
    chkStr e.imapHost "Invalid imapHost: must be a string"
    chkPosNum e.imapPort "Invalid imapPort: must be a positive number"
    chkStr e.smtpHost "Invalid smtpHost: must be a string"
    chkPosNum e.smtpPort "Invalid smtpPort: must be a positive number"
    chkStr e.username "Invalid username: must be a string"
    chkStr e.password "Invalid password: must be a string"
  | none => pure ()
  match u.filters with
  | some f =>
    chkBool f.keywordsEnabled "Invalid keywordsEnabled: must be a boolean"
    chkArr f.keywords "Invalid keywords: must be an array"
    chkArr f.excludedDomains "Invalid excludedDomains: must be an array"
  | none => pure ()
  match u.autoReply with
  | some a =>
    chkBool a.manualConfirmation "Invalid manualConfirmation: must be a boolean"
    chkStr a.replyTemplate "Invalid replyTemplate: must be a string"
    chkPosNum a.checkInterval "Invalid checkInterval: must be a positive number"
  | none => pure ()

/-- The stored `email` configuration section. -/
structure EmailConfig where
  imapHost : JSVal
  imapPort : JSVal
  smtpHost : JSVal
  smtpPort : JSVal
  username : JSVal
  password : JSVal
deriving DecidableEq, Repr

/-- The stored `filters` configuration section. -/
structure FiltersConfig where
  keywordsEnabled : JSVal
  keywords : JSVal
  excludedDomains : JSVal
deriving DecidableEq, Repr

/-- The stored `autoReply` configuration section. -/
structure AutoReplyConfig where
  manualConfirmation : JSVal
  replyTemplate : JSVal
  checkInterval : JSVal
deriving DecidableEq, Repr

/-- The stored `Config` object. -/
structure Config where
  email : EmailConfig
  filters : FiltersConfig
  autoReply : AutoReplyConfig
deriving DecidableEq, Repr

/-- The default configuration `getConfig` returns when none is stored. -/
def defaultConfig : Config :=
  { email :=
      { imapHost := .str ""
        imapPort := .num 993
        smtpHost := .str ""
        smtpPort := .num 587
        username := .str ""
        password := .str "" }
    filters :=
      { keywordsEnabled := .boolean false
        keywords := .arr []
        excludedDomains := .arr [] }
    autoReply :=
      { manualConfirmation := .boolean true
        replyTemplate := .str "Thank you for your email. I will respond shortly."
        checkInterval := .num 10 } }

/-- `{ ...currentConfig.email, ...updates.email }`. -/
def mergeEmail (c : EmailConfig) (u : Option EmailUpdate) : EmailConfig :=
  match u with
  | none => c
  | some e =>
    { imapHost := e.imapHost.getD c.imapHost
      imapPort := e.imapPort.getD c.imapPort
      smtpHost := e.smtpHost.getD c.smtpHost
      smtpPort := e.smtpPort.getD c.smtpPort
      username := e.username.getD c.username
      password := e.password.getD c.password }

/-- `{ ...currentConfig.filters, ...updates.filters }`. -/
def mergeFilters (c : FiltersConfig) (u : Option FiltersUpdate) : FiltersConfig :=
  match u with
  | none => c
  | some f =>
    { keywordsEnabled := f.keywordsEnabled.getD c.keywordsEnabled
      keywords := f.keywords.getD c.keywords
      excludedDomains := f.excludedDomains.getD c.excludedDomains }

/-- `{ ...currentConfig.autoReply, ...updates.autoReply }`. -/
def mergeAutoReply (c : AutoReplyConfig) (u : Option AutoReplyUpdate) : AutoReplyConfig :=
  match u with
  | none => c
  | some a =>
    { manualConfirmation := a.manualConfirmation.getD c.manualConfirmation
      replyTemplate := a.replyTemplate.getD c.replyTemplate
      checkInterval := a.checkInterval.getD c.checkInterval }

/-- The merged `newConfig` built by `updateConfig`. -/
def mergeConfig (c : Config) (u : ConfigUpdate) : Config :=
  { email := mergeEmail c.email u.email
    filters := mergeFilters c.filters u.filters
    autoReply := mergeAutoReply c.autoReply u.autoReply }

/-- A registered configuration listener; its returned `Except` records
whether the callback threw (the thrown message), which `notifyListeners`
catches and logs. -/
def ConfigListener : Type := Config → Except String Unit

/-- `notifyListeners`: invoke every listener in registration order with
the new configuration; each call is wrapped in try/catch, so an error
result never stops the loop and never escapes. The collected results are
the caught outcomes in order. -/
def notifyListeners (ls : List ConfigListener) (c : Config) : List (Except String Unit) :=
  match ls with
  | [] => []
  | l :: rest => l c :: notifyListeners rest c

/-- `updateConfig` (with the database write assumed successful): validate
the update — a validation error rejects the call with the stored
configuration untouched and nobody notified — then merge, store the new
snapshot and synchronously notify all listeners. -/
def updateConfig (c : Config) (u : ConfigUpdate) (ls : List ConfigListener) :
    Except String (Config × List (Except String Unit)) :=
  match validateConfig u with
  | .error msg => .error msg
  | .ok _ =>
    let newC := mergeConfig c u
    .ok (newC, notifyListeners ls newC)

/-! ## Invariants -/

/-- Every reply stored in the pending-confirmation queue has status
`pending` (established by `queueForConfirmation`, the only insertion
point, and preserved by `processConfirmation`). -/
def PendingInv (s : ResponderState) : Prop :=
  ∀ p ∈ s.pending, p.2.status = ReplyStatus.pending

/-! ## Concrete inputs used by counterexamples and witnesses -/

/-- Filter configuration whose single keyword spans the subject/body
boundary of `c2email`. -/
def c2cfg : FilterConfig :=
  { keywordsEnabled := true, keywords := ["O w"], excludedDomains := [] }

/-- Email whose subject ends in "o" and whose body starts with "w". -/
def c2email : Email :=
  { id := "1", fromAddr := "x@a.com", toAddr := "y@b.com", subject := "hello",
    body := "world", receivedAt := 0, isRead := false }

/-- The spec's scenario 1 configuration: keyword "urgent", excluded
domain "spam.com". -/
def c3cfg : FilterConfig :=
  { keywordsEnabled := true, keywords := ["urgent"], excludedDomains := ["spam.com"] }

/-- The spec's scenario 1 email: keyword match from an excluded domain. -/
def c3email : Email :=
  { id := "9", fromAddr := "spam@Spam.COM", toAddr := "me@x.y",
    subject := "URGENT help", body := "", receivedAt := 0, isRead := false }

/-- Email with an empty `from` address. -/
def c5email : Email :=
  { id := "e9", fromAddr := "", toAddr := "t@x.y", subject := "Hi",
    body := "B", receivedAt := 0, isRead := false }

/-- Responder configuration with an empty reply template. -/
def c5cfg : ResponderConfig :=
  { replyTemplate := "", manualConfirmation := true }

/-- A fetched message whose envelope has no recipient. -/
def c6raw : RawMessage :=
  { uid := "1"
    envelope := some { fromAddr := some { mailbox := "u", host := "a.com" } }
    body := "b" }

/-- A reply already in the terminal status `sent`. -/
def c7sentReply : Reply :=
  { id := "r1", originalEmailId := "e1", toAddr := "a@b.c", subject := "Re: x",
    body := "hello", generatedAt := 0, status := .sent, sentAt := some 3 }

/-- The update `{ email: { imapPort: 0 } }`. -/
def c8zeroUpdate : ConfigUpdate := { email := some { imapPort := some (.num 0) } }

/-- The update `{ email: { imapPort: -1 } }`. -/
def c8negUpdate : ConfigUpdate := { email := some { imapPort := some (.num (-1)) } }

/-- The update `{ autoReply: { checkInterval: 0 } }`. -/
def c8zeroIntervalUpdate : ConfigUpdate :=
  { autoReply := some { checkInterval := some (.num 0) } }

/-- An auto-mode monitor environment (keyword filtering off, no exclusions). -/
def c1env : MonitorEnv :=
  { filterConfig := { keywordsEnabled := false, keywords := [], excludedDomains := [] }
    responderCfg := { replyTemplate := "Thanks, {sender}", manualConfirmation := false } }

/-- An ordinary incoming email. -/
def c1email : Email :=
  { id := "m7", fromAddr := "alice@corp.example", toAddr := "me@here.example",
    subject := "Ping", body := "Hello", receivedAt := 5, isRead := false }

/-- A reply sitting in the pending queue, awaiting confirmation. -/
def c1pendingReply : Reply :=
  { id := "p1", originalEmailId := "m7", toAddr := "alice@corp.example",
    subject := "Re: Ping", body := "Thanks", generatedAt := 5, status := .pending }

/-- A responder state with exactly `c1pendingReply` queued. -/
def c1state : ResponderState := { pending := [("p1", c1pendingReply)] }

/-- Two registered configuration listeners, the first of which throws. -/
def c10listeners : List ConfigListener :=
  [fun _ => .error "listener boom", fun _ => .ok ()]

/-- The Email `checkInbox` assembles from `c6raw`: note the empty `to`. -/
def c6assembled : Email :=
  { id := "1", fromAddr := "u@a.com", toAddr := "", subject := "", body := "b",
    receivedAt := 0, isRead := false }

/-- The reply `processEmail` produces for `c1email` in auto mode when the
SMTP send fails. -/
def c1failedReply : Reply :=
  { id := "r9", originalEmailId := "m7", toAddr := "alice@corp.example",
    subject := "Re: Ping", body := "Thanks, alice@corp.example",
    generatedAt := 0, status := .failed, sentAt := none }

/-- `c1pendingReply` after a rejection. -/
def c1rejectedReply : Reply := { c1pendingReply with status := .rejected }

end LazyMail

namespace LazyMail

/-! # Theorems -/

/-! ## Shared helper lemmas -/

/-- `String` append concatenates the character data. -/
theorem string_data_append (a b : String) : (a ++ b).data = a.data ++ b.data := rfl

/-- The search text `` `${subject} ${body}` `` as character data. -/
theorem subject_body_data (e : Email) :
    (e.subject ++ " " ++ e.body).data = e.subject.data ++ ' ' :: e.body.data := by
  simp [string_data_append]

/-- `occursCI` against the concatenated search text, in the shape
`findMatches` computes. -/
theorem occursCI_concat (e : Email) (kw : String) :
    occursCI kw (e.subject ++ " " ++ e.body) =
      containsSub (lower (e.subject.data ++ ' ' :: e.body.data)) (lower kw.data) := by
  rw [occursCI, subject_body_data]

/-- Filtering a mapped list is mapping the filtered preimages. -/
theorem filter_map_eq {α β : Type} (f : α → β) (p : β → Bool) (l : List α) :
    (l.map f).filter p = (l.filter (fun a => p (f a))).map f := by
  induction l with
  | nil => rfl
  | cons a t ih => by_cases h : p (f a) <;> simp [List.filter_cons, h, ih]

/-- `findMatches` over the constructor-lower-cased keywords equals the
spec-side filter of the raw keywords by case-insensitive occurrence in the
concatenated subject and body, lower-cased. -/
theorem findMatches_eq (ks : List String) (e : Email) :
    findMatches (KeywordMatcher.keywordsOf ks) e =
      (ks.filter (fun kw => occursCI kw (e.subject ++ " " ++ e.body))).map
        (fun kw => lower kw.data) := by
  unfold findMatches KeywordMatcher.keywordsOf
  rw [filter_map_eq]
  congr 1
  apply List.filter_congr
  intro kw _
  rw [occursCI_concat]

/-- `afterFirstAt` determines `extractDomain`: the extracted domain is the
case-folded text after the first `@`. -/
theorem extractDomain_afterFirstAt (addr dp : List Char)
    (h : afterFirstAt addr = some dp) : extractDomain addr = lower dp := by
  induction addr with
  | nil => simp [afterFirstAt] at h
  | cons c t ih =>
      by_cases hc : c = '@'
      · simp [afterFirstAt, hc] at h
        simp [extractDomain, hc, h]
      · simp [afterFirstAt, hc] at h
        simp [extractDomain, hc, ih h]

/-! ## Claim C2 -/

/-- Claim C2 (amended): for every keyword list and every email whose
sender domain is not excluded: when keywordsEnabled is true,
shouldAutoReply approves the email iff at least one configured keyword
occurs case-insensitively in the concatenation `subject ++ " " ++ body`
(so a keyword may match across the subject/body boundary), and
matchedKeywords is then exactly the non-empty list of the lower-cased
forms of the occurring keywords; when keywordsEnabled is false, every
such email is approved regardless of content with no matchedKeywords. -/
theorem C2_keyword_filter_amended (cfg : FilterConfig) (e : Email)
    (hdom : isExcluded (DomainFilter.domainsOf cfg.excludedDomains) e.fromAddr.data = false) :
    (cfg.keywordsEnabled = true →
      ((shouldAutoReply cfg e).approved = true ↔
        cfg.keywords.filter (fun kw => occursCI kw (e.subject ++ " " ++ e.body)) ≠ []) ∧
      ((shouldAutoReply cfg e).approved = true →
        (shouldAutoReply cfg e).matchedKeywords =
          some ((cfg.keywords.filter
            (fun kw => occursCI kw (e.subject ++ " " ++ e.body))).map toLowerStr) ∧
        (shouldAutoReply cfg e).matchedKeywords ≠ some []) ∧
      ((shouldAutoReply cfg e).approved = false →
        (shouldAutoReply cfg e).matchedKeywords = none)) ∧
    (cfg.keywordsEnabled = false →
      (shouldAutoReply cfg e).approved = true ∧
      (shouldAutoReply cfg e).matchedKeywords = none) := by
  have hmm := findMatches_eq cfg.keywords e
  constructor
  · intro hk
    by_cases hm : cfg.keywords.filter (fun kw => occursCI kw (e.subject ++ " " ++ e.body)) = []
    · have hnil : findMatches (KeywordMatcher.keywordsOf cfg.keywords) e = [] := by
        rw [hmm, hm]; rfl
      refine ⟨?_, ?_, ?_⟩ <;> simp [shouldAutoReply, hdom, hk, hnil, hm]
    · have hlen : 0 < (findMatches (KeywordMatcher.keywordsOf cfg.keywords) e).length := by
        rw [hmm, List.length_map]
        exact List.length_pos.mpr hm
      refine ⟨?_, ?_, ?_⟩
      · simp [shouldAutoReply, hdom, hk, hlen, hm]
      · intro _
        constructor
        · simp only [shouldAutoReply, hdom, Bool.false_eq_true, if_false, hk, if_true, hlen,
            gt_iff_lt, if_pos]
          rw [hmm, List.map_map]
          rfl
        · simp only [shouldAutoReply, hdom, Bool.false_eq_true, if_false, hk, if_true, hlen,
            gt_iff_lt, if_pos]
          intro hcontra
          have := Option.some.inj hcontra
          have hlen2 : (findMatches (KeywordMatcher.keywordsOf cfg.keywords) e).length = 0 := by
            have := congrArg List.length this
            simpa using this
          omega
      · intro hfalse
        simp [shouldAutoReply, hdom, hk, hlen] at hfalse
  · intro hk
    simp [shouldAutoReply, hdom, hk]

/-- Claim C2 counterexample: with keyword "O w", subject "hello" and body
"world" (sender domain not excluded, keyword filtering on),
shouldAutoReply approves the email and reports the lower-cased match
"o w", yet "O w" occurs case-insensitively in neither the subject alone
nor the body alone — the match spans the boundary of the concatenated
search text, refuting "occurs in the subject or in the body". -/
theorem C2_counterexample :
    c2cfg.keywordsEnabled = true ∧
    isExcluded (DomainFilter.domainsOf c2cfg.excludedDomains) c2email.fromAddr.data = false ∧
    c2cfg.keywords = ["O w"] ∧
    occursCI "O w" c2email.subject = false ∧
    occursCI "O w" c2email.body = false ∧
    (shouldAutoReply c2cfg c2email).approved = true ∧
    (shouldAutoReply c2cfg c2email).matchedKeywords = some ["o w"] := by decide

/-- Witness for C2_keyword_filter_amended at the concrete configuration
`c2cfg` and email `c2email`, discharging the non-excluded-domain and
keywords-enabled hypotheses there. -/
theorem C2_witness :
    ((shouldAutoReply c2cfg c2email).approved = true ↔
      c2cfg.keywords.filter
        (fun kw => occursCI kw (c2email.subject ++ " " ++ c2email.body)) ≠ []) ∧
    (shouldAutoReply c2cfg c2email).approved = true ∧
    c2cfg.keywords.filter
      (fun kw => occursCI kw (c2email.subject ++ " " ++ c2email.body)) = ["O w"] := by
  refine ⟨((C2_keyword_filter_amended c2cfg c2email (by decide)).1 (by decide)).1, by decide, by decide⟩

/-! ## Claim C3 -/

/-- Claim C3: for every configuration and email, if the part of `from`
after the first `@`, case-folded, case-insensitively equals some entry of
excludedDomains, then shouldAutoReply returns approved = false with a
reason naming the (case-folded) excluded domain — regardless of
keywordsEnabled and of any keyword occurrences, since the domain check
runs first. -/
theorem C3_domain_exclusion (cfg : FilterConfig) (e : Email) (d : String) (dp : List Char)
    (hd : d ∈ cfg.excludedDomains)
    (hat : afterFirstAt e.fromAddr.data = some dp)
    (heq : lower dp = lower d.data) :
    (shouldAutoReply cfg e).approved = false ∧
    (shouldAutoReply cfg e).reason = excludedReason (lower dp) := by
  have hex : extractDomain e.fromAddr.data = lower dp := extractDomain_afterFirstAt _ _ hat
  have hmem : lower d.data ∈ DomainFilter.domainsOf cfg.excludedDomains :=
    List.mem_map_of_mem _ hd
  have hexc : isExcluded (DomainFilter.domainsOf cfg.excludedDomains) e.fromAddr.data = true := by
    unfold isExcluded
    rw [hex, heq]
    simpa using hmem
  refine ⟨by simp [shouldAutoReply, hexc], by simp [shouldAutoReply, hexc, hex]⟩

/-- Witness for C3_domain_exclusion at the spec's scenario 1: an email
from `spam@Spam.COM` containing the configured keyword "urgent" is still
rejected because `spam.com` is excluded (case-insensitively). -/
theorem C3_witness :
    "spam.com" ∈ c3cfg.excludedDomains ∧
    afterFirstAt c3email.fromAddr.data = some "Spam.COM".data ∧
    lower "Spam.COM".data = lower "spam.com".data ∧
    c3cfg.keywordsEnabled = true ∧
    occursCI "urgent" c3email.subject = true ∧
    (shouldAutoReply c3cfg c3email).approved = false ∧
    (shouldAutoReply c3cfg c3email).reason = excludedReason (lower "Spam.COM".data) := by
  have h := C3_domain_exclusion c3cfg c3email "spam.com" "Spam.COM".data
    (by decide) (by decide) (by decide)
  exact ⟨by decide, by decide, by decide, by decide, by decide, h.1, h.2⟩

/-! ## Claim C5 -/

/-- Claim C5 (amended): for every email and configured reply template,
generateReply returns a Reply whose originalEmailId equals the email's
id, whose `to` equals the email's `from` (so it is empty exactly when the
email's `from` is empty), whose subject is "Re: " prepended to the
original subject and is therefore always non-empty, and whose body is the
template with the placeholders substituted (which is empty when the
rendered template is empty, e.g. for an empty template). -/
theorem C5_generate_reply_amended (cfg : ResponderConfig) (newId : String) (now : Nat)
    (e : Email) :
    (generateReply cfg newId now e).originalEmailId = e.id ∧
    (generateReply cfg newId now e).toAddr = e.fromAddr ∧
    (generateReply cfg newId now e).subject = "Re: " ++ e.subject ∧
    (generateReply cfg newId now e).subject.data.length = e.subject.data.length + 4 ∧
    0 < (generateReply cfg newId now e).subject.data.length ∧
    (generateReply cfg newId now e).body = renderTemplate cfg.replyTemplate e := by
  have hdata : ("Re: " ++ e.subject).data = 'R' :: 'e' :: ':' :: ' ' :: e.subject.data := rfl
  refine ⟨rfl, rfl, rfl, ?_, ?_, rfl⟩
  · show ("Re: " ++ e.subject).data.length = e.subject.data.length + 4
    simp [hdata]
  · show 0 < ("Re: " ++ e.subject).data.length
    simp [hdata]

/-- Claim C5 counterexample: for an email with an empty `from` address
and an empty reply template, generateReply returns a Reply with empty
`to` and empty `body`, refuting the unconditional non-emptiness claim. -/
theorem C5_counterexample :
    c5email.fromAddr = "" ∧
    c5cfg.replyTemplate = "" ∧
    (generateReply c5cfg "r1" 0 c5email).toAddr = "" ∧
    (generateReply c5cfg "r1" 0 c5email).body = "" ∧
    (generateReply c5cfg "r1" 0 c5email).subject = "Re: Hi" := by decide

/-! ## Pending-queue helper lemmas -/

/-- Deleting a key makes it unfindable. -/
theorem mapGet_mapDelete (m : List (String × Reply)) (k : String) :
    mapGet (mapDelete m k) k = none := by
  induction m with
  | nil => rfl
  | cons p t ih =>
      by_cases h : p.1 == k
      · simp [mapDelete, List.filter_cons, bne, h]
        exact ih
      · simp [mapDelete, mapGet, List.filter_cons, bne, h,
          List.find?_cons_of_neg]

/-- Every entry of `mapSet m k v` is the new entry or came from `m`. -/
theorem mem_mapSet (m : List (String × Reply)) (k : String) (v : Reply)
    (p : String × Reply) (hp : p ∈ mapSet m k v) : p = (k, v) ∨ p ∈ m := by
  unfold mapSet at hp
  by_cases h : m.any (fun q => q.1 == k)
  · rw [if_pos h] at hp
    obtain ⟨q, hq, hpq⟩ := List.mem_map.mp hp
    by_cases h2 : q.1 == k
    · rw [if_pos h2] at hpq
      exact Or.inl hpq.symm
    · rw [if_neg h2] at hpq
      exact Or.inr (hpq ▸ hq)
  · rw [if_neg h] at hp
    rcases List.mem_append.mp hp with h1 | h2
    · exact Or.inr h1
    · exact Or.inl (List.mem_singleton.mp h2)

/-- A successful `mapGet` returns the payload of some stored entry. -/
theorem mapGet_mem (m : List (String × Reply)) (k : String) (q : Reply)
    (h : mapGet m k = some q) : ∃ p ∈ m, p.2 = q := by
  unfold mapGet at h
  obtain ⟨p, hfind, hq⟩ := Option.map_eq_some'.mp h
  exact ⟨p, List.mem_of_find?_eq_some hfind, hq⟩

/-! ## Claim C1 -/

/-- Claim C1: every Reply that reaches a terminal status through the
pipeline has markAsRead invoked on the originating email's id. In auto
mode, processEmail's reply is terminal only on the send path, whose trace
is exactly the SMTP send followed by markAsRead on the email's id —
regardless of send success or failure. processConfirmation, whenever it
succeeds, leaves the reply terminal and its trace performs markAsRead on
the reply's originalEmailId in both the approve and the reject branch,
before the entry is removed from the pending set. -/
theorem C1_mark_read_invariant :
    (∀ (env : MonitorEnv) (s : ResponderState) (newId : String) (now : Nat)
        (sendOk : Bool) (e : Email) (r : Reply),
        (processEmail env s newId now sendOk e).2.1 = some r →
        r.status.isTerminal = true →
        (processEmail env s newId now sendOk e).2.2 =
          [Ev.sendMail r.id, Ev.markRead e.id]) ∧
    (∀ (s : ResponderState) (replyId : String) (approved sendOk : Bool) (now : Nat)
        (s' : ResponderState) (r : Reply) (evs : List Ev),
        processConfirmation s replyId approved sendOk now = .ok (s', r, evs) →
        r.status.isTerminal = true ∧
        evs = (if approved then [Ev.sendMail r.id] else []) ++
          [Ev.markRead r.originalEmailId, Ev.removedFromPending replyId]) := by
  constructor
  · intro env s newId now sendOk e r hr hterm
    by_cases ha : (shouldAutoReply env.filterConfig e).approved
    · by_cases hp : (generateReply env.responderCfg newId now e).status = ReplyStatus.pending
      · simp [processEmail, ha, hp] at hr
        rw [← hr, hp] at hterm
        simp [ReplyStatus.isTerminal] at hterm
      · cases sendOk <;>
        · simp [processEmail, ha, hp, sendReply] at hr ⊢
          rw [← hr]
    · simp [processEmail, ha] at hr
  · intro s replyId approved sendOk now s' r evs h
    cases hg : mapGet s.pending replyId with
    | none => simp [processConfirmation, hg] at h
    | some reply =>
        cases approved with
        | false =>
            simp [processConfirmation, hg] at h
            obtain ⟨-, hr, hevs⟩ := h
            rw [← hr, ← hevs]
            simp [ReplyStatus.isTerminal]
        | true =>
            cases sendOk <;>
              · simp [processConfirmation, hg, sendReply] at h
                obtain ⟨-, hr, hevs⟩ := h
                rw [← hr, ← hevs]
                simp [ReplyStatus.isTerminal]

/-- Witness for C1_mark_read_invariant: the auto-mode branch at `c1env`
and `c1email` with a failing SMTP send still ends with markAsRead, and a
rejection through processConfirmation on `c1state` marks the original
email read before removing the pending entry. -/
theorem C1_witness :
    (processEmail c1env ⟨[]⟩ "r9" 0 false c1email).2.2 =
      [Ev.sendMail c1failedReply.id, Ev.markRead c1email.id] ∧
    c1rejectedReply.status.isTerminal = true ∧
    [Ev.markRead "m7", Ev.removedFromPending "p1"] =
      (if false then [Ev.sendMail c1rejectedReply.id] else []) ++
        [Ev.markRead c1rejectedReply.originalEmailId, Ev.removedFromPending "p1"] := by
  have hA := C1_mark_read_invariant.1 c1env ⟨[]⟩ "r9" 0 false c1email c1failedReply
    (by decide) (by decide)
  have hB := C1_mark_read_invariant.2 c1state "p1" false false 0 ⟨[]⟩ c1rejectedReply
    [Ev.markRead "m7", Ev.removedFromPending "p1"] (by rfl)
  exact ⟨hA, hB.1, hB.2⟩

/-! ## Claim C4 -/

/-- Claim C4: processConfirmation fails with NotFound exactly when the
reply id is absent from the pending set, and in that case it is a pure
error (no state change, no send, no mark-as-read — the result is the bare
NotFound error). A successful call removes the id from the pending set
and performs at most one SMTP send, so a second call on the same id fails
with NotFound and the reply is sent at most once. -/
theorem C4_confirmation_notfound :
    (∀ (s : ResponderState) (replyId : String) (a ok : Bool) (now : Nat),
        mapGet s.pending replyId = none →
        processConfirmation s replyId a ok now = .error (.notFound replyId)) ∧
    (∀ (s : ResponderState) (replyId : String) (a ok : Bool) (now : Nat)
        (out : ResponderState × Reply × List Ev),
        processConfirmation s replyId a ok now = .ok out →
        mapGet s.pending replyId ≠ none ∧
        out.2.2.countP Ev.isSendMail ≤ 1 ∧
        mapGet out.1.pending replyId = none ∧
        (∀ (a2 ok2 : Bool) (now2 : Nat),
          processConfirmation out.1 replyId a2 ok2 now2 =
            .error (.notFound replyId))) := by
  constructor
  · intro s replyId a ok now h
    simp [processConfirmation, h]
  · intro s replyId a ok now out h
    obtain ⟨s', r, evs⟩ := out
    cases hg : mapGet s.pending replyId with
    | none => simp [processConfirmation, hg] at h
    | some reply =>
        have hout : s'.pending = mapDelete s.pending replyId := by
          cases a with
          | false =>
              simp [processConfirmation, hg] at h
              rw [← h.1]
          | true =>
              cases ok <;>
                · simp [processConfirmation, hg, sendReply] at h
                  rw [← h.1]
        have hdel : mapGet s'.pending replyId = none := by
          rw [hout]; exact mapGet_mapDelete s.pending replyId
        refine ⟨by simp [hg], ?_, hdel, ?_⟩
        · cases a with
          | false =>
              simp [processConfirmation, hg] at h
              rw [← h.2.2]
              simp [List.countP_cons, Ev.isSendMail]
          | true =>
              cases ok <;>
                · simp [processConfirmation, hg, sendReply] at h
                  rw [← h.2.2]
                  simp [List.countP_cons, Ev.isSendMail]
        · intro a2 ok2 now2
          simp [processConfirmation, hdel]

/-- Witness for C4_confirmation_notfound: on the one-entry state
`c1state`, an unknown id fails with NotFound, and an approve on "p1"
followed by a second approve on "p1" fails with NotFound the second
time with exactly one send in between. -/
theorem C4_witness :
    processConfirmation c1state "zz" true true 0 = .error (.notFound "zz") ∧
    mapGet c1state.pending "p1" ≠ none ∧
    processConfirmation (⟨[]⟩ : ResponderState) "p1" true true 1 =
      .error (.notFound "p1") := by
  have h1 := C4_confirmation_notfound.1 c1state "zz" true true 0 (by decide)
  have h2 := C4_confirmation_notfound.2 c1state "p1" true true 0
    (⟨[]⟩, { c1pendingReply with status := .sent, sentAt := some 0 },
      [Ev.sendMail "p1", Ev.markRead "m7", Ev.removedFromPending "p1"]) (by rfl)
  exact ⟨h1, h2.1, h2.2.2.2 true true 1⟩

/-! ## Claim C7 -/

/-- Claim C7 counterexample: `queueForConfirmation` invoked on a reply in
the terminal status `sent` overwrites the status to `pending` (the stored
copy is the reply with its terminal status changed), and `sendReply`
invoked on a reply in the terminal status `rejected` overwrites the
status to `failed` — so AutoResponder operations do change terminal
statuses when applied to terminal replies. -/
theorem C7_counterexample :
    c7sentReply.status = ReplyStatus.sent ∧
    c7sentReply.status.isTerminal = true ∧
    mapGet (queueForConfirmation ⟨[]⟩ c7sentReply).pending c7sentReply.id =
      some { c7sentReply with status := .pending } ∧
    (getPendingReplies (queueForConfirmation ⟨[]⟩ c7sentReply)).map Reply.status =
      [ReplyStatus.pending] ∧
    (sendReply false 0 { c7sentReply with status := .rejected }).1.status =
      ReplyStatus.failed := by decide

/-- Claim C7 (amended): within the pipeline's own discipline terminal
replies are never re-entered: every reply stored in the pending set has
status pending — queueForConfirmation (re)sets the status of whatever it
stores to pending and processConfirmation only removes entries — so
processConfirmation only ever transitions a reply whose current status is
pending, never a terminal one. queueForConfirmation and sendReply
themselves, however, do not guard against terminal inputs (see the
counterexample). -/
theorem C7_terminal_amended :
    PendingInv ⟨[]⟩ ∧
    (∀ (s : ResponderState) (r : Reply),
        PendingInv s → PendingInv (queueForConfirmation s r)) ∧
    (∀ (s : ResponderState) (replyId : String) (a ok : Bool) (now : Nat)
        (s' : ResponderState) (r : Reply) (evs : List Ev),
        PendingInv s →
        processConfirmation s replyId a ok now = .ok (s', r, evs) →
        PendingInv s' ∧
        (∀ q : Reply, mapGet s.pending replyId = some q →
          q.status = ReplyStatus.pending ∧ q.status.isTerminal = false)) := by
  refine ⟨?_, ?_, ?_⟩
  · intro p hp
    simp at hp
  · intro s r hinv p hp
    rcases mem_mapSet s.pending r.id { r with status := .pending } p hp with h | h
    · rw [h]
    · exact hinv p h
  · intro s replyId a ok now s' r evs hinv h
    have hout : s'.pending = mapDelete s.pending replyId := by
      cases hg : mapGet s.pending replyId with
      | none => simp [processConfirmation, hg] at h
      | some reply =>
          cases a with
          | false =>
              simp [processConfirmation, hg] at h
              rw [← h.1]
          | true =>
              cases ok <;>
                · simp [processConfirmation, hg, sendReply] at h
                  rw [← h.1]
    constructor
    · intro p hp
      rw [hout] at hp
      exact hinv p (List.mem_of_mem_filter hp)
    · intro q hq
      obtain ⟨p, hpmem, hpq⟩ := mapGet_mem s.pending replyId q hq
      have := hinv p hpmem
      rw [hpq] at this
      exact ⟨this, by rw [this]; rfl⟩

/-- Witness for C7_terminal_amended: queuing `c1pendingReply` into the
empty state preserves the all-pending invariant, and the successful
rejection of "p1" on `c1state` both preserves it and shows the
transitioned reply had status pending (not terminal). -/
theorem C7_witness :
    PendingInv (queueForConfirmation ⟨[]⟩ c1pendingReply) ∧
    PendingInv (⟨[]⟩ : ResponderState) ∧
    c1pendingReply.status = ReplyStatus.pending ∧
    c1pendingReply.status.isTerminal = false := by
  have hq := C7_terminal_amended.2.1 ⟨[]⟩ c1pendingReply C7_terminal_amended.1
  have hc := C7_terminal_amended.2.2 c1state "p1" false false 0 ⟨[]⟩ c1rejectedReply
    [Ev.markRead "m7", Ev.removedFromPending "p1"]
    (by intro p hp; simp [c1state] at hp; rw [hp]; rfl) (by rfl)
  exact ⟨hq, hc.1, hc.2 c1pendingReply (by rfl)⟩

/-! ## Claim C6 -/

/-- Claim C6 (amended): every Email that checkInbox returns has non-empty
`id` and `from` (the fetch handler keeps a message only when both are
truthy) and defined `subject`, `body`, `receivedAt` and `to` — but `to`
may be the empty string, since the guard does not check it. -/
theorem C6_checkinbox_emails_amended (now : Nat) (msgs : List RawMessage) (e : Email)
    (he : e ∈ checkInbox now msgs) :
    e.id ≠ "" ∧ e.fromAddr ≠ "" := by
  rcases List.mem_filterMap.mp he with ⟨m, _, hf⟩
  simp only [emailFromRaw] at hf
  split at hf
  · rename_i hcond
    simp only [Bool.and_eq_true, decide_eq_true_eq] at hcond
    obtain rfl := Option.some.inj hf
    exact ⟨hcond.1, hcond.2⟩
  · exact absurd hf (by simp)

/-- Claim C6 counterexample: a fetched message whose envelope has a
sender but no recipient is kept by checkInbox with `to = ""`, refuting
the claim that every returned Email has non-empty `to`. -/
theorem C6_counterexample :
    checkInbox 0 [c6raw] = [c6assembled] ∧
    c6assembled.toAddr = "" ∧
    c6assembled.id = "1" ∧
    c6assembled.fromAddr = "u@a.com" := by decide

/-- Witness for C6_checkinbox_emails_amended at the concrete inbox
`[c6raw]` and its assembled email. -/
theorem C6_witness : c6assembled.id ≠ "" ∧ c6assembled.fromAddr ≠ "" :=
  C6_checkinbox_emails_amended 0 [c6raw] c6assembled (by decide)

/-! ## Claim C8 -/

/-- Claim C8 is contradicted by the code at the value 0: validateConfig
only checks a port/interval field when it is truthy, and `0` is falsy in
JavaScript, so `imapPort: 0` (and `checkInterval: 0`) pass validation —
updateConfig then stores the non-positive value and notifies every
listener, while a negative value is rejected as the claim describes.
This theorem evaluates the code at both the failing and the expected
inputs. -/
theorem C8_zero_port_bug :
    validateConfig c8zeroUpdate = .ok () ∧
    validateConfig c8zeroIntervalUpdate = .ok () ∧
    updateConfig defaultConfig c8zeroUpdate c10listeners =
      .ok (mergeConfig defaultConfig c8zeroUpdate,
        [.error "listener boom", .ok ()]) ∧
    (mergeConfig defaultConfig c8zeroUpdate).email.imapPort = .num 0 ∧
    (mergeConfig defaultConfig c8zeroIntervalUpdate).autoReply.checkInterval = .num 0 ∧
    validateConfig c8negUpdate = .error "Invalid imapPort: must be a positive number" := by
  exact ⟨rfl, rfl, rfl, rfl, rfl, rfl⟩

/-! ## Poll-loop helper lemmas -/

/-- Poll runs compose over concatenated outcome sequences. -/
theorem runPolls_append (s : MonitorState) (l1 l2 : List Bool) :
    runPolls s (l1 ++ l2) =
      ((runPolls (runPolls s l1).1 l2).1,
        (runPolls s l1).2 ++ (runPolls (runPolls s l1).1 l2).2) := by
  induction l1 generalizing s with
  | nil => simp [runPolls]
  | cons o t ih =>
      cases o <;> simp [runPolls, pollCycle, ih]

/-- A run of `n` straight failures starting at counter `c`: the counter
ends at `c + n`, the running flag is untouched, and the `i`-th cycle logs
`failCycleLogs (c + i + 1)`. -/
theorem runPolls_replicate_false (c : Nat) (b : Bool) (n : Nat) :
    runPolls ⟨c, b⟩ (List.replicate n false) =
      (⟨c + n, b⟩, (List.range n).map (fun i => failCycleLogs (c + i + 1))) := by
  induction n generalizing c with
  | zero => simp [runPolls]
  | succ n ih =>
      simp only [List.replicate_succ, runPolls, pollCycle, Bool.false_eq_true, if_false,
        ih (c + 1), List.range_succ_eq_map, List.map_cons, List.map_map, Prod.mk.injEq,
        MonitorState.mk.injEq, List.cons.injEq]
      refine ⟨⟨by omega, trivial⟩, by simp, ?_⟩
      apply List.map_congr_left
      intro i _
      simp only [Function.comp]
      exact congrArg failCycleLogs (by omega)

/-! ## Claim C9 -/

/-- Claim C9: when checkInbox fails on N consecutive cycles and then
succeeds, the monitor keeps running throughout (after the N failures the
state still has its running flag and a counter of N, and the loop accepts
the next cycle): each failed cycle k logs exactly one error entry naming
the attempt count k, additionally containing the distinguished
max-consecutive-failures entry precisely when the count has reached 5,
the successful cycle logs nothing, and the counter resets to zero. -/
theorem C9_consecutive_failures (N : Nat) :
    (runPolls ⟨0, true⟩ (List.replicate N false)).1 = ⟨N, true⟩ ∧
    (runPolls ⟨0, true⟩ (List.replicate N false ++ [true])).1 = ⟨0, true⟩ ∧
    (runPolls ⟨0, true⟩ (List.replicate N false ++ [true])).2.length = N + 1 ∧
    (∀ k, k < N →
      (runPolls ⟨0, true⟩ (List.replicate N false ++ [true])).2[k]? =
        some (failCycleLogs (k + 1))) ∧
    (runPolls ⟨0, true⟩ (List.replicate N false ++ [true])).2[N]? = some [] ∧
    (∀ k,
      (failCycleLogs k).count (MonLog.checkFailed k MAX_CONSECUTIVE_FAILURES) = 1 ∧
      ((MonLog.maxFailuresReached MAX_CONSECUTIVE_FAILURES ∈ failCycleLogs k) ↔
        MAX_CONSECUTIVE_FAILURES ≤ k)) := by
  have hrep := runPolls_replicate_false 0 true N
  have happ := runPolls_append ⟨0, true⟩ (List.replicate N false) [true]
  have hone : runPolls (⟨N, true⟩ : MonitorState) [true] = (⟨0, true⟩, [[]]) := by
    simp [runPolls, pollCycle]
  have hfull : runPolls ⟨0, true⟩ (List.replicate N false ++ [true]) =
      (⟨0, true⟩, ((List.range N).map (fun i => failCycleLogs (0 + i + 1))) ++ [[]]) := by
    rw [happ, hrep]
    simp only [Nat.zero_add] at hone ⊢
    rw [hone]
  refine ⟨by rw [hrep]; simp, by rw [hfull], ?_, ?_, ?_, ?_⟩
  · rw [hfull]
    simp
  · intro k hk
    rw [hfull]
    have hcell : ((List.range N).map (fun i => failCycleLogs (0 + i + 1)))[k]? =
        some (failCycleLogs (k + 1)) := by
      rw [List.getElem?_map, List.getElem?_range hk]
      simp
    simp [List.getElem?_append, hk, hcell]
  · rw [hfull]
    simp [List.getElem?_append]
  · intro k
    constructor
    · by_cases h : MAX_CONSECUTIVE_FAILURES ≤ k <;>
        simp [failCycleLogs, h, List.count_cons]
    · by_cases h : MAX_CONSECUTIVE_FAILURES ≤ k <;>
        simp [failCycleLogs, h]

/-- Witness for C9_consecutive_failures at N = 6 failures then one
success: cycle 5 (index 4) logs the failure entry for attempt 5 together
with the distinguished max-consecutive-failures entry, cycle 2 logs only
its failure entry, and the final successful cycle resets the counter. -/
theorem C9_witness :
    (runPolls ⟨0, true⟩ (List.replicate 6 false ++ [true])).1 = ⟨0, true⟩ ∧
    (runPolls ⟨0, true⟩ (List.replicate 6 false ++ [true])).2[4]? =
      some (failCycleLogs 5) ∧
    failCycleLogs 5 = [MonLog.checkFailed 5 5, MonLog.maxFailuresReached 5] ∧
    failCycleLogs 2 = [MonLog.checkFailed 2 5] := by
  have h := C9_consecutive_failures 6
  exact ⟨h.2.1, h.2.2.2.1 4 (by omega), by decide, by decide⟩

/-! ## Claim C10 -/

/-- Claim C10: during a configuration update every registered listener is
invoked, in registration order, with the new configuration — the loop
wraps each call in try/catch, so the i-th result is always the i-th
listener's own outcome regardless of what earlier listeners did — and a
validated updateConfig succeeds and returns the merged snapshot with the
notification results, whatever the listeners throw. -/
theorem C10_listener_isolation :
    (∀ (ls : List ConfigListener) (c : Config),
        (notifyListeners ls c).length = ls.length ∧
        ∀ (i : Nat) (h : i < ls.length),
          (notifyListeners ls c)[i]? = some ((ls.get ⟨i, h⟩) c)) ∧
    (∀ (cfg : Config) (u : ConfigUpdate) (ls : List ConfigListener),
        validateConfig u = .ok () →
        updateConfig cfg u ls =
          .ok (mergeConfig cfg u, notifyListeners ls (mergeConfig cfg u))) := by
  constructor
  · intro ls c
    induction ls with
    | nil => exact ⟨rfl, fun i h => absurd h (by simp)⟩
    | cons l t ih =>
        refine ⟨by simp [notifyListeners, ih.1], ?_⟩
        intro i h
        cases i with
        | zero => simp [notifyListeners]
        | succ j =>
            have hj : j < t.length := by simpa using h
            simpa [notifyListeners] using ih.2 j hj
  · intro cfg u ls hv
    unfold updateConfig
    rw [hv]

/-- Witness for C10_listener_isolation on `c10listeners`, whose first
listener throws: the second listener still runs and observes the update,
and updateConfig with the (valid) empty update still succeeds. -/
theorem C10_witness :
    (notifyListeners c10listeners defaultConfig)[1]? =
      some ((c10listeners.get ⟨1, by decide⟩) defaultConfig) ∧
    updateConfig defaultConfig {} c10listeners =
      .ok (mergeConfig defaultConfig {},
        notifyListeners c10listeners (mergeConfig defaultConfig {})) := by
  exact ⟨(C10_listener_isolation.1 c10listeners defaultConfig).2 1 (by decide),
    C10_listener_isolation.2 defaultConfig {} c10listeners (by rfl)⟩

end LazyMail
